import Mathlib

/-!
Shallow embedding of the decision-fusion core of the fraud-detection
repository (src/realtime/rule_engine.py, src/realtime/alert_manager.py,
src/realtime/realtime_predictor.py).

Python floats are modelled as exact rationals (ℚ); Python's `round(x, 4)`
is modelled as round-half-to-even at four decimal places.  Database lookups
performed by two rules (customer average amount, customer history counts)
are modelled by an explicit environment record `Env` holding the lookup
results; a lookup that fails or finds nothing is `none`, exactly as the
Python helpers return `None` / fall through to `(False, 0.0)`.
-/

/-- Transaction input, as read out of `transaction_data` by the rule checks.
`customerId = ""` models a missing/falsy `customer_id` (Python truthiness);
`hour = none` models a missing or unparseable timestamp. -/
structure Txn where
  customerId : String
  amount : ℚ
  kycVerified : ℤ
  accountAgeDays : ℚ
  channel : String
  hour : Option ℤ
deriving Repr, DecidableEq

/-- Results of the two external (database) lookups used by the rules:
`get_customer_average_amount` and the history query of
`check_customer_history`.  `none` models "no data / lookup failed". -/
structure Env where
  avgAmount : Option ℚ
  history : Option (ℕ × ℕ)
deriving Repr, DecidableEq

/-- Mirror of `RuleEngine._default_config`'s keys used by the checks. -/
structure RulesConfig where
  high_amount_multiplier : ℚ
  new_account_days : ℚ
  high_risk_amount : ℚ
  suspicious_hour_start : ℤ
  suspicious_hour_end : ℤ
  low_amount_threshold : ℚ
deriving Repr, DecidableEq

/-- `RuleEngine._default_config`. -/
def default_config : RulesConfig :=
  { high_amount_multiplier := 5.0
    new_account_days := 7
    high_risk_amount := 20000
    suspicious_hour_start := 2
    suspicious_hour_end := 4
    low_amount_threshold := 5000 }

/-- `RuleEngine.check_high_amount_unverified` (thresholds hard-coded in the
source, not drawn from the config). -/
def check_high_amount_unverified (t : Txn) : Bool × ℚ :=
  if t.kycVerified = 0 then
    if 50000 < t.amount then (true, 0.70)
    else if 20000 < t.amount then (true, 0.55)
    else (false, 0.0)
  else (false, 0.0)

/-- `RuleEngine.check_new_account_high_amount`. -/
def check_new_account_high_amount (cfg : RulesConfig) (t : Txn) : Bool × ℚ :=
  if t.accountAgeDays < cfg.new_account_days ∧ cfg.high_risk_amount < t.amount then
    (true, min (0.75 + min ((t.amount - cfg.high_risk_amount) / 100000) 0.2) 0.95)
  else (false, 0.0)

/-- `RuleEngine.check_high_amount_vs_average`; the `avg_amount and
avg_amount > 0` truthiness test collapses to the `0 < avg` guard. -/
def check_high_amount_vs_average (cfg : RulesConfig) (env : Env) (t : Txn) : Bool × ℚ :=
  if t.customerId = "" then (false, 0.0)
  else
    match env.avgAmount with
    | none => (false, 0.0)
    | some avg =>
      if 0 < avg ∧ cfg.high_amount_multiplier * avg < t.amount then
        (true, min (0.7 + (t.amount / avg - cfg.high_amount_multiplier) * 0.05) 0.95)
      else (false, 0.0)

/-- Python's `str.lower()`, character by character (all channel names the
engine compares against are ASCII). -/
def strLower (s : String) : String := String.mk (s.data.map Char.toLower)

/-- `RuleEngine.check_international_unverified`. -/
def check_international_unverified (t : Txn) : Bool × ℚ :=
  if (strLower t.channel = "international" ∨ strLower t.channel = "foreign" ∨
      strLower t.channel = "overseas") ∧ t.kycVerified = 0 then
    (true, 0.85)
  else (false, 0.0)

/-- `RuleEngine.check_odd_hour`; the hour comes from the transaction's own
timestamp, `none` when the timestamp is absent or fails to parse. -/
def check_odd_hour (cfg : RulesConfig) (t : Txn) : Bool × ℚ :=
  match t.hour with
  | none => (false, 0.0)
  | some h =>
    if cfg.suspicious_hour_start ≤ h ∧ h ≤ cfg.suspicious_hour_end then (true, 0.60)
    else (false, 0.0)

/-- `RuleEngine.check_low_amount`. -/
def check_low_amount (cfg : RulesConfig) (t : Txn) : Bool × ℚ :=
  if 0 < t.amount ∧ t.amount < cfg.low_amount_threshold then (true, -0.30)
  else (false, 0.0)

/-- `RuleEngine.check_established_customer`. -/
def check_established_customer (t : Txn) : Bool × ℚ :=
  if t.kycVerified = 1 ∧ 365 ≤ t.accountAgeDays then (true, -0.10)
  else (false, 0.0)

/-- `RuleEngine.check_customer_history`; the `if result and result[0]`
truthiness test is the `total ≠ 0` guard. -/
def check_customer_history (env : Env) (t : Txn) : Bool × ℚ :=
  if t.customerId = "" then (false, 0.0)
  else
    match env.history with
    | none => (false, 0.0)
    | some (total, fraud_count) =>
      if total ≠ 0 then
        if 10 ≤ total ∧ fraud_count = 0 then (true, -0.15) else (false, 0.0)
      else (false, 0.0)

/-- One entry of `RuleEngine.rules`.  The evaluation function returns in
`Except` because a Python rule function may raise; `evaluate_transaction`
catches and logs such failures. -/
structure RuleDef where
  name : String
  priority : ℤ
  reason : String
  func : Txn → Except String (Bool × ℚ)

/-- One entry of the `triggered_rules` list built by
`RuleEngine.evaluate_transaction`. -/
structure TriggeredRule where
  name : String
  reason : String
  priority : ℤ
  risk_contribution : ℚ
deriving Repr, DecidableEq

/-- The rule loop of `RuleEngine.evaluate_transaction` (lines 137-152): each
rule is evaluated inside `try/except`; a triggered rule is appended to
`triggered_rules`, a non-triggered or failing rule contributes nothing. -/
def runRules (rules : List RuleDef) (t : Txn) : List TriggeredRule :=
  match rules with
  | [] => []
  | r :: rs =>
    match r.func t with
    | Except.ok (true, c) =>
      { name := r.name, reason := r.reason, priority := r.priority,
        risk_contribution := c } :: runRules rs t
    | Except.ok (false, _) => runRules rs t
    | Except.error _ => runRules rs t

/-- `RuleEngine.load_rules` after its stable sort by descending priority,
closed over a configuration and the database lookup results; every catalog
rule returns normally (`Except.ok`). -/
def catalog (cfg : RulesConfig) (env : Env) : List RuleDef :=
  [ { name := "high_amount_unverified_kyc", priority := 6,
      reason := "High transaction amount without KYC verification",
      func := fun t => Except.ok (check_high_amount_unverified t) },
    { name := "new_account_high_amount", priority := 5,
      reason := "New account with high transaction amount",
      func := fun t => Except.ok (check_new_account_high_amount cfg t) },
    { name := "high_amount_vs_average", priority := 4,
      reason := "High amount compared to user average",
      func := fun t => Except.ok (check_high_amount_vs_average cfg env t) },
    { name := "international_unverified", priority := 3,
      reason := "International transaction without KYC verification",
      func := fun t => Except.ok (check_international_unverified t) },
    { name := "odd_hour_transaction", priority := 2,
      reason := "Transaction during suspicious hours (2-4 AM)",
      func := fun t => Except.ok (check_odd_hour cfg t) },
    { name := "low_amount_trust", priority := 1,
      reason := "Low transaction amount (reasonable spending)",
      func := fun t => Except.ok (check_low_amount cfg t) },
    { name := "established_customer_discount", priority := 1,
      reason := "Established verified customer (trust discount)",
      func := fun t => Except.ok (check_established_customer t) },
    { name := "good_customer_history", priority := 1,
      reason := "Customer has clean transaction history",
      func := fun t => Except.ok (check_customer_history env t) } ]

/-- `max(positive_rules) if positive_rules else 0.0` — since every element of
the filtered list is positive, folding `max` with base `0` computes exactly
the Python maximum when the list is nonempty and `0.0` otherwise. -/
def rule_risk_increase (scores : List ℚ) : ℚ :=
  (scores.filter (fun s => decide (0 < s))).foldr max 0

/-- `sum(negative_rules)` over the negative contributions. -/
def rule_risk_decrease (scores : List ℚ) : ℚ :=
  (scores.filter (fun s => decide (s < 0))).sum

/-- `rule_risk_score = max(0.0, rule_risk_increase + rule_risk_decrease)`. -/
def rule_risk_score (scores : List ℚ) : ℚ :=
  max 0 (rule_risk_increase scores + rule_risk_decrease scores)

/-- `max(0.0, min(1.0, x))`, the clamp used for `adjusted_ml_score`. -/
def clamp01 (x : ℚ) : ℚ := max 0 (min 1 x)

/-- The minimum-risk-floor step of `RuleEngine.evaluate_transaction`
(lines 175-181). -/
def apply_amount_floor (amount x : ℚ) : ℚ :=
  if 50000 < amount then max x 0.05
  else if 20000 < amount then max x 0.03
  else x

/-- Round-half-to-even of a rational to an integer (the tie-breaking
behaviour of Python's `round`). -/
def roundHalfEven (x : ℚ) : ℤ :=
  if x - ⌊x⌋ < 1/2 then ⌊x⌋
  else if 1/2 < x - ⌊x⌋ then ⌊x⌋ + 1
  else if ⌊x⌋ % 2 = 0 then ⌊x⌋ else ⌊x⌋ + 1

/-- `round(x, 4)` from the source, on exact rationals. -/
def round4 (x : ℚ) : ℚ := (roundHalfEven (x * 10000) : ℚ) / 10000

/-- The `risk_score`/`prediction` pair of a `RealtimePredictor.predict`
result, the only fields of the ML prediction dictionary that
`evaluate_transaction` reads. -/
structure MLPred where
  risk_score : ℚ
  prediction : String
deriving Repr, DecidableEq

/-- The result dictionary built by `RuleEngine.evaluate_transaction`
(lines 192-200). -/
structure EvalResult where
  final_prediction : String
  risk_score : ℚ
  ml_risk_score : ℚ
  rule_risk_score : ℚ
  rules_triggered : List String
  rule_details : List TriggeredRule
  rules_count : ℕ
deriving Repr, DecidableEq

/-- `RuleEngine.evaluate_transaction` (lines 121-202). -/
def evaluate_transaction (rules : List RuleDef) (t : Txn)
    (ml_prediction : Option MLPred) : EvalResult :=
  let triggered := runRules rules t
  let scores := triggered.map (fun r => r.risk_contribution)
  let inc := rule_risk_increase scores
  let dec := rule_risk_decrease scores
  let rrs := rule_risk_score scores
  match ml_prediction with
  | some m =>
    let adjusted_ml_score := clamp01 (m.risk_score + dec)
    let final := apply_amount_floor t.amount (max adjusted_ml_score inc)
    let high_priority := triggered.filter (fun r => decide ((0.5 : ℚ) < r.risk_contribution))
    { final_prediction :=
        if ¬ high_priority.isEmpty ∨ m.prediction = "Fraud" then "Fraud" else "Legitimate"
      risk_score := round4 final
      ml_risk_score := round4 m.risk_score
      rule_risk_score := round4 rrs
      rules_triggered := triggered.map (fun r => r.reason)
      rule_details := triggered
      rules_count := triggered.length }
  | none =>
    { final_prediction := if ¬ triggered.isEmpty then "Fraud" else "Legitimate"
      risk_score := round4 rrs
      ml_risk_score := 0
      rule_risk_score := round4 rrs
      rules_triggered := triggered.map (fun r => r.reason)
      rule_details := triggered
      rules_count := triggered.length }

/-- The threshold step of `RealtimePredictor.predict` (line 173):
`"Fraud" if risk_score >= self.threshold else "Legitimate"`. -/
def predict_label (risk_score threshold : ℚ) : String :=
  if threshold ≤ risk_score then "Fraud" else "Legitimate"

/-- One row of the `fraud_alerts` table (`AlertManager._ensure_table_exists`).
Timestamps are abstract ticks (ℕ); the free-text `alert_message` built by
string interpolation in `create_alert` is not modelled, its inputs
(`triggered_rules`, `ml_prediction`, `risk_score`) are stored directly. -/
structure AlertRecord where
  alert_id : ℕ
  transaction_id : String
  customer_id : String
  alert_type : String
  severity : String
  status : String
  risk_score : ℚ
  ml_prediction : Option String
  triggered_rules : List String
  metadata : Option String
  created_at : ℕ
  updated_at : ℕ
  resolved_at : Option ℕ
  resolved_by : Option String
  resolution_notes : Option String
deriving Repr, DecidableEq

/-- The `fraud_alerts` table: `next_id` models the AUTOINCREMENT primary
key, rows are kept in insertion order. -/
structure AlertStore where
  next_id : ℕ
  alerts : List AlertRecord
deriving Repr, DecidableEq

/-- The severity ladder of `AlertManager.create_alert` (lines 122-129). -/
def severity_of (risk_score : ℚ) : String :=
  if 0.9 ≤ risk_score then "CRITICAL"
  else if 0.7 ≤ risk_score then "HIGH"
  else if 0.5 ≤ risk_score then "MEDIUM"
  else "LOW"

/-- `AlertManager.create_alert` (lines 80-182): returns the new alert id and
the updated store, or `none` with the store unchanged when the decision is
not `Fraud`.  `now` is the database's CURRENT_TIMESTAMP. -/
def create_alert (transaction_id customer_id : String) (risk_score : ℚ)
    (ml_prediction : Option MLPred) (rule_evaluation : Option EvalResult)
    (metadata : Option String) (store : AlertStore) (now : ℕ) :
    Option ℕ × AlertStore :=
  let final_prediction :=
    match rule_evaluation with
    | some re => re.final_prediction
    | none =>
      match ml_prediction with
      | some m => m.prediction
      | none => "Legitimate"
  if final_prediction ≠ "Fraud" then (none, store)
  else
    let has_ml := ml_prediction.isSome
    let has_rules :=
      match rule_evaluation with
      | some re => decide (0 < re.rules_count)
      | none => false
    let record : AlertRecord :=
      { alert_id := store.next_id
        transaction_id := transaction_id
        customer_id := customer_id
        alert_type :=
          if has_ml && has_rules then "HYBRID"
          else if has_rules then "RULE"
          else "ML"
        severity := severity_of risk_score
        status := "NEW"
        risk_score := risk_score
        ml_prediction := ml_prediction.map (fun m => m.prediction)
        triggered_rules :=
          match rule_evaluation with
          | some re => re.rules_triggered
          | none => []
        metadata := metadata
        created_at := now
        updated_at := now
        resolved_at := none
        resolved_by := none
        resolution_notes := none }
    (some store.next_id, { next_id := store.next_id + 1, alerts := store.alerts ++ [record] })

/-- `AlertManager.update_alert_status` (lines 254-293), as its effect on the
row matched by `WHERE alert_id = ?`: the new status is written
unconditionally; when it is one of the three terminal statuses the
resolution columns are stamped as well. -/
def update_alert_status (a : AlertRecord) (status : String)
    (notes : Option String) (resolved_by : Option String) (now : ℕ) : AlertRecord :=
  if status = "RESOLVED" ∨ status = "FALSE_POSITIVE" ∨ status = "CONFIRMED" then
    { a with status := status, updated_at := now, resolved_at := some now,
             resolution_notes := notes, resolved_by := resolved_by }
  else
    { a with status := status, updated_at := now }

/-! ### Helper lemmas -/

lemma foldrMax_nonneg (l : List ℚ) : 0 ≤ l.foldr max 0 := by
  induction l with
  | nil => simp
  | cons a l ih => exact le_trans ih (le_max_right a _)

lemma le_foldrMax_of_mem {l : List ℚ} {x : ℚ} (h : x ∈ l) : x ≤ l.foldr max 0 := by
  induction l with
  | nil => cases h
  | cons a l ih =>
    rcases List.mem_cons.mp h with rfl | h
    · exact le_max_left _ _
    · exact le_trans (ih h) (le_max_right a _)

lemma foldrMax_mem {l : List ℚ} (hne : l ≠ []) (hpos : ∀ x ∈ l, 0 < x) :
    l.foldr max 0 ∈ l := by
  induction l with
  | nil => exact absurd rfl hne
  | cons a l ih =>
    cases l with
    | nil =>
      have ha : 0 < a := hpos a (List.mem_cons_self a [])
      simp [max_eq_left ha.le]
    | cons b l =>
      rcases max_choice a ((b :: l).foldr max 0) with h | h
      · simp only [List.foldr_cons] at h ⊢
        rw [h]; exact List.mem_cons_self _ _
      · simp only [List.foldr_cons] at h ⊢
        rw [h]
        exact List.mem_cons_of_mem a
          (ih (by simp) (fun x hx => hpos x (List.mem_cons_of_mem a hx)))

lemma foldrMax_le {l : List ℚ} {b : ℚ} (hb : 0 ≤ b) (h : ∀ x ∈ l, x ≤ b) :
    l.foldr max 0 ≤ b := by
  induction l with
  | nil => simpa
  | cons a l ih =>
    exact max_le (h a (List.mem_cons_self a l))
      (ih (fun x hx => h x (List.mem_cons_of_mem a hx)))

lemma rule_risk_increase_nonneg (scores : List ℚ) : 0 ≤ rule_risk_increase scores :=
  foldrMax_nonneg _

lemma rule_risk_increase_cons (c : ℚ) (cs : List ℚ) :
    rule_risk_increase (c :: cs) = max (if 0 < c then c else 0) (rule_risk_increase cs) := by
  unfold rule_risk_increase
  by_cases h : 0 < c
  · simp only [List.filter_cons, decide_eq_true_eq, if_pos h, List.foldr_cons]
  · simp only [List.filter_cons, decide_eq_true_eq, if_neg h]
    exact (max_eq_right (foldrMax_nonneg _)).symm

lemma rule_risk_decrease_cons (c : ℚ) (cs : List ℚ) :
    rule_risk_decrease (c :: cs) = (if c < 0 then c else 0) + rule_risk_decrease cs := by
  unfold rule_risk_decrease
  by_cases h : c < 0
  · simp only [List.filter_cons, decide_eq_true_eq, if_pos h, List.sum_cons]
  · simp only [List.filter_cons, decide_eq_true_eq, if_neg h, zero_add]

lemma rule_risk_decrease_nonpos (scores : List ℚ) : rule_risk_decrease scores ≤ 0 := by
  induction scores with
  | nil => simp [rule_risk_decrease]
  | cons c cs ih =>
    rw [rule_risk_decrease_cons]
    have : (if c < 0 then c else 0) ≤ 0 := by split_ifs with h <;> [exact h.le; exact le_refl 0]
    linarith

lemma rule_risk_score_nonneg (scores : List ℚ) : 0 ≤ rule_risk_score scores :=
  le_max_left 0 _

lemma clamp01_nonneg (x : ℚ) : 0 ≤ clamp01 x := le_max_left 0 _

lemma clamp01_le_one (x : ℚ) : clamp01 x ≤ 1 :=
  max_le (by norm_num) (min_le_left 1 x)

lemma clamp01_mono {x y : ℚ} (h : x ≤ y) : clamp01 x ≤ clamp01 y :=
  max_le_max (le_refl 0) (min_le_min (le_refl 1) h)

lemma roundHalfEven_ge (x : ℚ) : ⌊x⌋ ≤ roundHalfEven x := by
  unfold roundHalfEven; split_ifs <;> omega

lemma roundHalfEven_le (x : ℚ) : roundHalfEven x ≤ ⌊x⌋ + 1 := by
  unfold roundHalfEven; split_ifs <;> omega

lemma roundHalfEven_mono {x y : ℚ} (h : x ≤ y) : roundHalfEven x ≤ roundHalfEven y := by
  rcases lt_or_eq_of_le (Int.floor_le_floor h : ⌊x⌋ ≤ ⌊y⌋) with hlt | heq
  · have h1 := roundHalfEven_le x
    have h2 := roundHalfEven_ge y
    omega
  · have hxy : x - (⌊x⌋ : ℚ) ≤ y - (⌊x⌋ : ℚ) := by linarith
    unfold roundHalfEven
    rw [← heq]
    split_ifs <;> first | omega | (exfalso; linarith)

lemma round4_mono {x y : ℚ} (h : x ≤ y) : round4 x ≤ round4 y := by
  unfold round4
  have h1 : roundHalfEven (x * 10000) ≤ roundHalfEven (y * 10000) :=
    roundHalfEven_mono (by linarith)
  have h2 : ((roundHalfEven (x * 10000) : ℤ) : ℚ) ≤ ((roundHalfEven (y * 10000) : ℤ) : ℚ) := by
    exact_mod_cast h1
  linarith

lemma round4_zero : round4 0 = 0 := by norm_num [round4, roundHalfEven]

lemma round4_one : round4 1 = 1 := by norm_num [round4, roundHalfEven]

lemma round4_nonneg {x : ℚ} (h : 0 ≤ x) : 0 ≤ round4 x :=
  round4_zero ▸ round4_mono h

lemma round4_le_one {x : ℚ} (h : x ≤ 1) : round4 x ≤ 1 :=
  round4_one ▸ round4_mono h

/-- Positive part of a rule result, as it enters `rule_risk_increase`:
the contribution when the rule is triggered and contributes positively,
`0` otherwise. -/
def posC (p : Bool × ℚ) : ℚ := if p.1 = true ∧ 0 < p.2 then p.2 else 0

/-- Negative part of a rule result, as it enters `rule_risk_decrease`. -/
def negC (p : Bool × ℚ) : ℚ := if p.1 = true ∧ p.2 < 0 then p.2 else 0

/-- Positive part contributed by one `RuleDef` (a failing rule contributes
nothing). -/
def pEff (r : RuleDef) (t : Txn) : ℚ :=
  match r.func t with
  | Except.ok (true, c) => if 0 < c then c else 0
  | _ => 0

/-- Negative part contributed by one `RuleDef`. -/
def dEff (r : RuleDef) (t : Txn) : ℚ :=
  match r.func t with
  | Except.ok (true, c) => if c < 0 then c else 0
  | _ => 0

lemma posC_nonneg (p : Bool × ℚ) : 0 ≤ posC p := by
  unfold posC; split_ifs with h
  · exact h.2.le
  · exact le_refl 0

lemma posC_le {p : Bool × ℚ} {b : ℚ} (hb : 0 ≤ b) (h : p.2 ≤ b) : posC p ≤ b := by
  unfold posC; split_ifs <;> assumption

lemma negC_nonpos (p : Bool × ℚ) : negC p ≤ 0 := by
  unfold negC; split_ifs with h
  · exact h.2.le
  · exact le_refl 0

lemma pEff_ok (name reason : String) (prio : ℤ) (g : Txn → Bool × ℚ) (t : Txn) :
    pEff { name := name, priority := prio, reason := reason,
           func := fun s => Except.ok (g s) } t = posC (g t) := by
  rcases h : g t with ⟨b, c⟩
  cases b <;> simp [pEff, posC, h]

lemma dEff_ok (name reason : String) (prio : ℤ) (g : Txn → Bool × ℚ) (t : Txn) :
    dEff { name := name, priority := prio, reason := reason,
           func := fun s => Except.ok (g s) } t = negC (g t) := by
  rcases h : g t with ⟨b, c⟩
  cases b <;> simp [dEff, negC, h]

lemma runRules_cons_error {r : RuleDef} {rs : List RuleDef} {t : Txn} {e : String}
    (h : r.func t = Except.error e) :
    runRules (r :: rs) t = runRules rs t := by
  conv_lhs => rw [runRules]
  rw [h]

lemma runRules_cons_ok_true {r : RuleDef} {rs : List RuleDef} {t : Txn} {c : ℚ}
    (h : r.func t = Except.ok (true, c)) :
    runRules (r :: rs) t =
      { name := r.name, reason := r.reason, priority := r.priority,
        risk_contribution := c } :: runRules rs t := by
  conv_lhs => rw [runRules]
  rw [h]

lemma runRules_cons_ok_false {r : RuleDef} {rs : List RuleDef} {t : Txn} {c : ℚ}
    (h : r.func t = Except.ok (false, c)) :
    runRules (r :: rs) t = runRules rs t := by
  conv_lhs => rw [runRules]
  rw [h]

lemma rri_runRules_nil (t : Txn) :
    rule_risk_increase ((runRules [] t).map (fun r => r.risk_contribution)) = 0 := rfl

lemma rrd_runRules_nil (t : Txn) :
    rule_risk_decrease ((runRules [] t).map (fun r => r.risk_contribution)) = 0 := rfl

lemma rri_runRules_cons (r : RuleDef) (rs : List RuleDef) (t : Txn) :
    rule_risk_increase ((runRules (r :: rs) t).map (fun x => x.risk_contribution)) =
      max (pEff r t)
        (rule_risk_increase ((runRules rs t).map (fun x => x.risk_contribution))) := by
  rcases h : r.func t with e | ⟨b, c⟩
  · rw [runRules_cons_error h]
    simp only [pEff, h]
    exact (max_eq_right (rule_risk_increase_nonneg _)).symm
  · cases b
    · rw [runRules_cons_ok_false h]
      simp only [pEff, h]
      exact (max_eq_right (rule_risk_increase_nonneg _)).symm
    · rw [runRules_cons_ok_true h, List.map_cons]
      simp only [pEff, h]
      exact rule_risk_increase_cons c _

lemma rrd_runRules_cons (r : RuleDef) (rs : List RuleDef) (t : Txn) :
    rule_risk_decrease ((runRules (r :: rs) t).map (fun x => x.risk_contribution)) =
      dEff r t +
        rule_risk_decrease ((runRules rs t).map (fun x => x.risk_contribution)) := by
  rcases h : r.func t with e | ⟨b, c⟩
  · rw [runRules_cons_error h]
    simp only [dEff, h, zero_add]
  · cases b
    · rw [runRules_cons_ok_false h]
      simp only [dEff, h, zero_add]
    · rw [runRules_cons_ok_true h, List.map_cons]
      simp only [dEff, h]
      exact rule_risk_decrease_cons c _

/-- `rule_risk_increase` over the catalog, unfolded into the maximum of the
positive parts of the eight checks. -/
lemma catalog_rri (cfg : RulesConfig) (env : Env) (t : Txn) :
    rule_risk_increase ((runRules (catalog cfg env) t).map (fun r => r.risk_contribution)) =
      max (posC (check_high_amount_unverified t))
        (max (posC (check_new_account_high_amount cfg t))
          (max (posC (check_high_amount_vs_average cfg env t))
            (max (posC (check_international_unverified t))
              (max (posC (check_odd_hour cfg t))
                (max (posC (check_low_amount cfg t))
                  (max (posC (check_established_customer t))
                    (max (posC (check_customer_history env t)) 0))))))) := by
  simp only [catalog, rri_runRules_cons, rri_runRules_nil, pEff_ok]

/-- `rule_risk_decrease` over the catalog, unfolded into the sum of the
negative parts of the eight checks. -/
lemma catalog_rrd (cfg : RulesConfig) (env : Env) (t : Txn) :
    rule_risk_decrease ((runRules (catalog cfg env) t).map (fun r => r.risk_contribution)) =
      negC (check_high_amount_unverified t) +
        (negC (check_new_account_high_amount cfg t) +
          (negC (check_high_amount_vs_average cfg env t) +
            (negC (check_international_unverified t) +
              (negC (check_odd_hour cfg t) +
                (negC (check_low_amount cfg t) +
                  (negC (check_established_customer t) +
                    (negC (check_customer_history env t) + 0))))))) := by
  simp only [catalog, rrd_runRules_cons, rrd_runRules_nil, dEff_ok]

lemma posC_true_pos {c : ℚ} (h : 0 < c) : posC (true, c) = c := by simp [posC, h]

lemma posC_false (c : ℚ) : posC (false, c) = 0 := by simp [posC]

lemma posC_true_nonpos {c : ℚ} (h : c ≤ 0) : posC (true, c) = 0 := by
  simp [posC, not_lt.mpr h]

lemma negC_true_neg {c : ℚ} (h : c < 0) : negC (true, c) = c := by simp [negC, h]

lemma negC_false (c : ℚ) : negC (false, c) = 0 := by simp [negC]

lemma negC_true_nonneg {c : ℚ} (h : 0 ≤ c) : negC (true, c) = 0 := by
  simp [negC, not_lt.mpr h]

/-- The contribution of `check_new_account_high_amount` when its trigger
condition holds is strictly positive. -/
lemma new_account_contrib_pos {thr a : ℚ} (h : thr < a) :
    0 < min (0.75 + min ((a - thr) / 100000) 0.2) 0.95 := by
  have hin : 0 < min ((a - thr) / 100000) (0.2 : ℚ) :=
    lt_min (div_pos (by linarith) (by norm_num)) (by norm_num)
  exact lt_min (by linarith) (by norm_num)

/-- The contribution of `check_high_amount_vs_average` when its trigger
condition holds is strictly positive. -/
lemma vs_average_contrib_pos {m avg a : ℚ} (havg : 0 < avg) (h : m * avg < a) :
    0 < min (0.7 + (a / avg - m) * 0.05) 0.95 := by
  have hr : m < a / avg := (lt_div_iff₀ havg).mpr (by linarith [mul_comm m avg])
  exact lt_min (by nlinarith) (by norm_num)

lemma check_high_amount_unverified_snd_le (t : Txn) :
    (check_high_amount_unverified t).2 ≤ 0.95 := by
  unfold check_high_amount_unverified
  split_ifs <;> norm_num

lemma check_new_account_snd_le (cfg : RulesConfig) (t : Txn) :
    (check_new_account_high_amount cfg t).2 ≤ 0.95 := by
  unfold check_new_account_high_amount
  split_ifs
  · exact min_le_right _ _
  · norm_num

lemma check_vs_average_snd_le (cfg : RulesConfig) (env : Env) (t : Txn) :
    (check_high_amount_vs_average cfg env t).2 ≤ 0.95 := by
  unfold check_high_amount_vs_average
  split_ifs
  · norm_num
  · rcases h : env.avgAmount with _ | avg
    · norm_num
    · dsimp only
      split_ifs
      · exact min_le_right _ _
      · norm_num

lemma check_international_snd_le (t : Txn) :
    (check_international_unverified t).2 ≤ 0.95 := by
  unfold check_international_unverified
  split_ifs <;> norm_num

lemma check_odd_hour_snd_le (cfg : RulesConfig) (t : Txn) :
    (check_odd_hour cfg t).2 ≤ 0.95 := by
  unfold check_odd_hour
  rcases t.hour with _ | h
  · norm_num
  · dsimp only
    split_ifs <;> norm_num

lemma check_low_amount_snd_le (cfg : RulesConfig) (t : Txn) :
    (check_low_amount cfg t).2 ≤ 0.95 := by
  unfold check_low_amount
  split_ifs <;> norm_num

lemma check_established_snd_le (t : Txn) :
    (check_established_customer t).2 ≤ 0.95 := by
  unfold check_established_customer
  split_ifs <;> norm_num

lemma check_history_snd_le (env : Env) (t : Txn) :
    (check_customer_history env t).2 ≤ 0.95 := by
  unfold check_customer_history
  split_ifs
  · norm_num
  · rcases h : env.history with _ | ⟨total, fraud⟩
    · norm_num
    · dsimp only
      split_ifs <;> norm_num

/-- Under the catalog every positive contribution is capped at 0.95, so the
aggregated rule risk increase is as well (the caps are hard-coded in the
checks, independent of the configuration). -/
lemma catalog_rri_le (cfg : RulesConfig) (env : Env) (t : Txn) :
    rule_risk_increase ((runRules (catalog cfg env) t).map (fun r => r.risk_contribution)) ≤
      0.95 := by
  rw [catalog_rri]
  have h95 : (0 : ℚ) ≤ 0.95 := by norm_num
  exact max_le (posC_le h95 (check_high_amount_unverified_snd_le t))
    (max_le (posC_le h95 (check_new_account_snd_le cfg t))
      (max_le (posC_le h95 (check_vs_average_snd_le cfg env t))
        (max_le (posC_le h95 (check_international_snd_le t))
          (max_le (posC_le h95 (check_odd_hour_snd_le cfg t))
            (max_le (posC_le h95 (check_low_amount_snd_le cfg t))
              (max_le (posC_le h95 (check_established_snd_le t))
                (max_le (posC_le h95 (check_history_snd_le env t)) h95)))))))

lemma Txn_update_amount (t : Txn) (a : ℚ) : ({ t with amount := a } : Txn).amount = a := rfl

lemma Txn_update_kyc (t : Txn) (a : ℚ) :
    ({ t with amount := a } : Txn).kycVerified = t.kycVerified := rfl

lemma Txn_update_age (t : Txn) (a : ℚ) :
    ({ t with amount := a } : Txn).accountAgeDays = t.accountAgeDays := rfl

lemma Txn_update_customer (t : Txn) (a : ℚ) :
    ({ t with amount := a } : Txn).customerId = t.customerId := rfl

lemma check_international_eq {t₁ t₂ : Txn} (hch : t₁.channel = t₂.channel)
    (hk : t₁.kycVerified = t₂.kycVerified) :
    check_international_unverified t₁ = check_international_unverified t₂ := by
  unfold check_international_unverified
  rw [hch, hk]

lemma check_odd_hour_eq (cfg : RulesConfig) {t₁ t₂ : Txn} (hh : t₁.hour = t₂.hour) :
    check_odd_hour cfg t₁ = check_odd_hour cfg t₂ := by
  unfold check_odd_hour
  rw [hh]

lemma check_established_eq {t₁ t₂ : Txn} (hk : t₁.kycVerified = t₂.kycVerified)
    (hage : t₁.accountAgeDays = t₂.accountAgeDays) :
    check_established_customer t₁ = check_established_customer t₂ := by
  unfold check_established_customer
  rw [hk, hage]

lemma check_history_eq (env : Env) {t₁ t₂ : Txn} (hc : t₁.customerId = t₂.customerId) :
    check_customer_history env t₁ = check_customer_history env t₂ := by
  unfold check_customer_history
  rw [hc]

lemma posC_high_unverified_mono {t : Txn} {a₁ a₂ : ℚ} (h1 : a₁ < 50000) (h2 : 50000 < a₂) :
    posC (check_high_amount_unverified { t with amount := a₁ }) ≤
      posC (check_high_amount_unverified { t with amount := a₂ }) := by
  unfold check_high_amount_unverified
  simp only [Txn_update_amount, Txn_update_kyc]
  by_cases hk : t.kycVerified = 0
  · rw [if_pos hk, if_neg (not_lt.mpr h1.le), if_pos hk, if_pos h2,
      posC_true_pos (by norm_num : (0 : ℚ) < 0.70)]
    by_cases h20 : (20000 : ℚ) < a₁
    · rw [if_pos h20, posC_true_pos (by norm_num : (0 : ℚ) < 0.55)]
      norm_num
    · rw [if_neg h20, posC_false]
      norm_num
  · rw [if_neg hk, if_neg hk]

lemma posC_new_account_mono {cfg : RulesConfig} {t : Txn} {a₁ a₂ : ℚ} (h12 : a₁ ≤ a₂) :
    posC (check_new_account_high_amount cfg { t with amount := a₁ }) ≤
      posC (check_new_account_high_amount cfg { t with amount := a₂ }) := by
  unfold check_new_account_high_amount
  simp only [Txn_update_amount, Txn_update_age]
  by_cases hL : t.accountAgeDays < cfg.new_account_days ∧ cfg.high_risk_amount < a₁
  · have h2 : cfg.high_risk_amount < a₂ := lt_of_lt_of_le hL.2 h12
    rw [if_pos hL, posC_true_pos (new_account_contrib_pos hL.2),
      if_pos ⟨hL.1, h2⟩, posC_true_pos (new_account_contrib_pos h2)]
    have hd : (a₁ - cfg.high_risk_amount) / 100000 ≤
        (a₂ - cfg.high_risk_amount) / 100000 := by linarith
    have hmin : min ((a₁ - cfg.high_risk_amount) / 100000) (0.2 : ℚ) ≤
        min ((a₂ - cfg.high_risk_amount) / 100000) 0.2 :=
      min_le_min hd (le_refl _)
    exact min_le_min (by linarith) (le_refl _)
  · rw [if_neg hL, posC_false]
    exact posC_nonneg _

lemma posC_vs_average_mono {cfg : RulesConfig} {env : Env} {t : Txn} {a₁ a₂ : ℚ}
    (h12 : a₁ ≤ a₂) :
    posC (check_high_amount_vs_average cfg env { t with amount := a₁ }) ≤
      posC (check_high_amount_vs_average cfg env { t with amount := a₂ }) := by
  unfold check_high_amount_vs_average
  simp only [Txn_update_amount, Txn_update_customer]
  by_cases hcid : t.customerId = ""
  · rw [if_pos hcid, if_pos hcid]
  · rw [if_neg hcid, if_neg hcid]
    rcases ha : env.avgAmount with _ | avg
    · exact le_refl _
    · dsimp only
      by_cases hL : 0 < avg ∧ cfg.high_amount_multiplier * avg < a₁
      · have h2 : cfg.high_amount_multiplier * avg < a₂ := lt_of_lt_of_le hL.2 h12
        rw [if_pos hL, posC_true_pos (vs_average_contrib_pos hL.1 hL.2),
          if_pos ⟨hL.1, h2⟩, posC_true_pos (vs_average_contrib_pos hL.1 h2)]
        have hd : a₁ / avg ≤ a₂ / avg := by
          rw [div_eq_mul_inv, div_eq_mul_inv]
          exact mul_le_mul_of_nonneg_right h12 (inv_pos.mpr hL.1).le
        exact min_le_min (by linarith) (le_refl _)
      · rw [if_neg hL, posC_false]
        exact posC_nonneg _

lemma negC_low_amount_mono {cfg : RulesConfig} {t : Txn} {a₁ a₂ : ℚ}
    (h2 : ¬ (0 < a₂ ∧ a₂ < cfg.low_amount_threshold)) :
    negC (check_low_amount cfg { t with amount := a₁ }) ≤
      negC (check_low_amount cfg { t with amount := a₂ }) := by
  unfold check_low_amount
  simp only [Txn_update_amount]
  rw [if_neg h2, negC_false]
  exact negC_nonpos _

lemma negC_high_unverified (t : Txn) : negC (check_high_amount_unverified t) = 0 := by
  unfold check_high_amount_unverified
  split_ifs
  · exact negC_true_nonneg (by norm_num)
  · exact negC_true_nonneg (by norm_num)
  · exact negC_false _
  · exact negC_false _

lemma negC_new_account (cfg : RulesConfig) (t : Txn) :
    negC (check_new_account_high_amount cfg t) = 0 := by
  unfold check_new_account_high_amount
  split_ifs with h
  · exact negC_true_nonneg (new_account_contrib_pos h.2).le
  · exact negC_false _

lemma negC_vs_average (cfg : RulesConfig) (env : Env) (t : Txn) :
    negC (check_high_amount_vs_average cfg env t) = 0 := by
  unfold check_high_amount_vs_average
  split_ifs
  · exact negC_false _
  · rcases ha : env.avgAmount with _ | avg
    · exact negC_false _
    · dsimp only
      split_ifs with h2
      · exact negC_true_nonneg (vs_average_contrib_pos h2.1 h2.2).le
      · exact negC_false _

lemma negC_international (t : Txn) : negC (check_international_unverified t) = 0 := by
  unfold check_international_unverified
  split_ifs
  · exact negC_true_nonneg (by norm_num)
  · exact negC_false _

lemma negC_odd_hour (cfg : RulesConfig) (t : Txn) : negC (check_odd_hour cfg t) = 0 := by
  unfold check_odd_hour
  rcases hh : t.hour with _ | h
  · exact negC_false _
  · dsimp only
    split_ifs
    · exact negC_true_nonneg (by norm_num)
    · exact negC_false _

lemma posC_low_amount (cfg : RulesConfig) (t : Txn) : posC (check_low_amount cfg t) = 0 := by
  unfold check_low_amount
  split_ifs
  · exact posC_true_nonpos (by norm_num)
  · exact posC_false _

lemma posC_established (t : Txn) : posC (check_established_customer t) = 0 := by
  unfold check_established_customer
  split_ifs
  · exact posC_true_nonpos (by norm_num)
  · exact posC_false _

lemma posC_history (env : Env) (t : Txn) : posC (check_customer_history env t) = 0 := by
  unfold check_customer_history
  split_ifs
  · exact posC_false _
  · rcases ha : env.history with _ | ⟨total, fraud⟩
    · exact posC_false _
    · dsimp only
      split_ifs
      · exact posC_true_nonpos (by norm_num)
      · exact posC_false _
      · exact posC_false _

/-- Holding every field but the amount fixed (KYC unverified), raising the
amount from below 50000 to above 50000 cannot lower the aggregated rule
risk increase of the default catalog. -/
lemma catalog_rri_amount_mono (env : Env) (t : Txn) (a₁ a₂ : ℚ)
    (h1 : a₁ < 50000) (h2 : 50000 < a₂) :
    rule_risk_increase
        ((runRules (catalog default_config env) { t with amount := a₁ }).map
          (fun r => r.risk_contribution)) ≤
      rule_risk_increase
        ((runRules (catalog default_config env) { t with amount := a₂ }).map
          (fun r => r.risk_contribution)) := by
  rw [catalog_rri, catalog_rri]
  have h12 : a₁ ≤ a₂ := (lt_trans h1 h2).le
  refine max_le_max (posC_high_unverified_mono h1 h2)
    (max_le_max (posC_new_account_mono h12)
      (max_le_max (posC_vs_average_mono h12)
        (max_le_max (le_of_eq (congrArg posC (check_international_eq rfl rfl)))
          (max_le_max (le_of_eq (congrArg posC (check_odd_hour_eq _ rfl)))
            (max_le_max (le_of_eq (by rw [posC_low_amount, posC_low_amount]))
              (max_le_max (le_of_eq (congrArg posC (check_established_eq rfl rfl)))
                (max_le_max (le_of_eq (congrArg posC (check_history_eq _ rfl)))
                  (le_refl 0))))))))

/-- Holding every field but the amount fixed, raising the amount above 50000
cannot make the aggregated trust discount of the default catalog more
negative (the only amount-sensitive discount, the low-amount rule, switches
off). -/
lemma catalog_rrd_amount_mono (env : Env) (t : Txn) (a₁ a₂ : ℚ) (h2 : 50000 < a₂) :
    rule_risk_decrease
        ((runRules (catalog default_config env) { t with amount := a₁ }).map
          (fun r => r.risk_contribution)) ≤
      rule_risk_decrease
        ((runRules (catalog default_config env) { t with amount := a₂ }).map
          (fun r => r.risk_contribution)) := by
  rw [catalog_rrd, catalog_rrd]
  refine add_le_add (le_of_eq (by rw [negC_high_unverified, negC_high_unverified]))
    (add_le_add (le_of_eq (by rw [negC_new_account, negC_new_account]))
      (add_le_add (le_of_eq (by rw [negC_vs_average, negC_vs_average]))
        (add_le_add (le_of_eq (congrArg negC (check_international_eq rfl rfl)))
          (add_le_add (le_of_eq (congrArg negC (check_odd_hour_eq _ rfl)))
            (add_le_add (negC_low_amount_mono ?_)
              (add_le_add (le_of_eq (congrArg negC (check_established_eq rfl rfl)))
                (add_le_add (le_of_eq (congrArg negC (check_history_eq _ rfl)))
                  (le_refl 0))))))))
  rintro ⟨h0, hlt⟩
  have hthr : default_config.low_amount_threshold = 5000 := rfl
  rw [hthr] at hlt
  linarith

lemma apply_amount_floor_mono {a₁ a₂ x y : ℚ} (h2 : 50000 < a₂) (hxy : x ≤ y) :
    apply_amount_floor a₁ x ≤ apply_amount_floor a₂ y := by
  unfold apply_amount_floor
  rw [if_pos h2]
  split_ifs
  · exact max_le_max hxy (le_refl _)
  · exact max_le (le_trans hxy (le_max_left _ _))
      (le_trans (by norm_num) (le_max_right y (0.05 : ℚ)))
  · exact le_trans hxy (le_max_left _ _)

lemma apply_amount_floor_nonneg {a x : ℚ} (hx : 0 ≤ x) : 0 ≤ apply_amount_floor a x := by
  unfold apply_amount_floor
  split_ifs
  · exact le_trans hx (le_max_left _ _)
  · exact le_trans hx (le_max_left _ _)
  · exact hx

lemma apply_amount_floor_le_one {a x : ℚ} (hx : x ≤ 1) : apply_amount_floor a x ≤ 1 := by
  unfold apply_amount_floor
  split_ifs
  · exact max_le hx (by norm_num)
  · exact max_le hx (by norm_num)
  · exact hx

/-- Projection of the risk score out of `evaluate_transaction` with an ML
prediction: spec step 1 (clamp), step 2 (max with the rule signal), step 3
(amount floor), then the reporting rounding. -/
lemma evaluate_some_risk_score (rules : List RuleDef) (t : Txn) (m : MLPred) :
    (evaluate_transaction rules t (some m)).risk_score =
      round4 (apply_amount_floor t.amount
        (max (clamp01 (m.risk_score +
            rule_risk_decrease ((runRules rules t).map (fun r => r.risk_contribution))))
          (rule_risk_increase ((runRules rules t).map (fun r => r.risk_contribution))))) := rfl

lemma evaluate_some_final_prediction (rules : List RuleDef) (t : Txn) (m : MLPred) :
    (evaluate_transaction rules t (some m)).final_prediction =
      if ¬ ((runRules rules t).filter
            (fun r => decide ((0.5 : ℚ) < r.risk_contribution))).isEmpty ∨
          m.prediction = "Fraud"
      then "Fraud" else "Legitimate" := rfl

lemma evaluate_none_risk_score (rules : List RuleDef) (t : Txn) :
    (evaluate_transaction rules t none).risk_score =
      round4 (rule_risk_score ((runRules rules t).map (fun r => r.risk_contribution))) := rfl

lemma evaluate_none_final_prediction (rules : List RuleDef) (t : Txn) :
    (evaluate_transaction rules t none).final_prediction =
      if ¬ (runRules rules t).isEmpty then "Fraud" else "Legitimate" := rfl

lemma evaluate_rule_risk_score (rules : List RuleDef) (t : Txn) (ml : Option MLPred) :
    (evaluate_transaction rules t ml).rule_risk_score =
      round4 (rule_risk_score ((runRules rules t).map (fun r => r.risk_contribution))) := by
  cases ml <;> rfl

lemma runRules_ne_nil_of_triggered {rules : List RuleDef} {r : RuleDef} {t : Txn} {c : ℚ}
    (hmem : r ∈ rules) (h : r.func t = Except.ok (true, c)) : runRules rules t ≠ [] := by
  induction rules with
  | nil => cases hmem
  | cons a rs ih =>
    rcases ha : a.func t with e | ⟨b, c2⟩
    · rw [runRules_cons_error ha]
      rcases List.mem_cons.mp hmem with rfl | hmem2
      · rw [h] at ha
        simp at ha
      · exact ih hmem2
    · cases b
      · rw [runRules_cons_ok_false ha]
        rcases List.mem_cons.mp hmem with rfl | hmem2
        · rw [h] at ha
          simp at ha
        · exact ih hmem2
      · rw [runRules_cons_ok_true ha]
        simp

lemma evaluate_congr_runRules {rules₁ rules₂ : List RuleDef} (t : Txn)
    (h : runRules rules₁ t = runRules rules₂ t) (ml : Option MLPred) :
    evaluate_transaction rules₁ t ml = evaluate_transaction rules₂ t ml := by
  unfold evaluate_transaction
  rw [h]

lemma eval_some_risk_score_eq {rules : List RuleDef} {t : Txn} {m : MLPred} {v : ℚ}
    (h : apply_amount_floor t.amount
        (max (clamp01 (m.risk_score +
            rule_risk_decrease ((runRules rules t).map (fun r => r.risk_contribution))))
          (rule_risk_increase ((runRules rules t).map (fun r => r.risk_contribution)))) = v)
    (hv : round4 v = v) :
    (evaluate_transaction rules t (some m)).risk_score = v := by
  rw [evaluate_some_risk_score, h, hv]

lemma eval_none_risk_score_eq {rules : List RuleDef} {t : Txn} {v : ℚ}
    (h : rule_risk_score ((runRules rules t).map (fun r => r.risk_contribution)) = v)
    (hv : round4 v = v) :
    (evaluate_transaction rules t none).risk_score = v := by
  rw [evaluate_none_risk_score, h, hv]

lemma eval_rule_risk_score_eq {rules : List RuleDef} {t : Txn} {ml : Option MLPred} {v : ℚ}
    (h : rule_risk_score ((runRules rules t).map (fun r => r.risk_contribution)) = v)
    (hv : round4 v = v) :
    (evaluate_transaction rules t ml).rule_risk_score = v := by
  rw [evaluate_rule_risk_score, h, hv]

/-! ### Concrete inputs used by the claims -/

/-- Database lookups that find nothing. -/
def env_empty : Env := { avgAmount := none, history := none }

/-- Lookups for an established customer: average amount 2000, twenty clean
transactions. -/
def env_trusted : Env := { avgAmount := some 2000, history := some (20, 0) }

/-- Small transaction of a long-standing verified customer with a clean
history: exactly the three trust-discount rules fire (−0.30, −0.10, −0.15). -/
def txn_discounts : Txn :=
  { customerId := "c1", amount := 1000, kycVerified := 1, accountAgeDays := 400,
    channel := "Web", hour := some 12 }

/-- KYC-verified transaction of 60000 at noon with a 100-day-old account and
no customer id: no rule in the catalog triggers. -/
def txn_no_rules : Txn :=
  { customerId := "", amount := 60000, kycVerified := 1, accountAgeDays := 100,
    channel := "Web", hour := some 12 }

/-- Unverified international transaction of 60000: exactly the two positive
rules with contributions 0.70 and 0.85 trigger. -/
def txn_two_positive : Txn :=
  { customerId := "", amount := 60000, kycVerified := 0, accountAgeDays := 30,
    channel := "International", hour := some 12 }

/-- Small transaction at 3 AM: the odd-hour rule (+0.60) and the low-amount
discount (−0.30) trigger. -/
def txn_small_odd_hour : Txn :=
  { customerId := "", amount := 1000, kycVerified := 0, accountAgeDays := 30,
    channel := "Web", hour := some 3 }

lemma runRules_txn_discounts :
    runRules (catalog default_config env_trusted) txn_discounts =
      [ { name := "low_amount_trust",
          reason := "Low transaction amount (reasonable spending)",
          priority := 1, risk_contribution := -0.30 },
        { name := "established_customer_discount",
          reason := "Established verified customer (trust discount)",
          priority := 1, risk_contribution := -0.10 },
        { name := "good_customer_history",
          reason := "Customer has clean transaction history",
          priority := 1, risk_contribution := -0.15 } ] := by
  norm_num [runRules, catalog, check_high_amount_unverified, check_new_account_high_amount,
    check_high_amount_vs_average, check_international_unverified, check_odd_hour,
    check_low_amount, check_established_customer, check_customer_history,
    default_config, env_trusted, txn_discounts,
    (by decide : ¬ (("c1" : String) = "")),
    (by decide : strLower "Web" = "web")]

lemma runRules_txn_no_rules :
    runRules (catalog default_config env_empty) txn_no_rules = [] := by
  norm_num [runRules, catalog, check_high_amount_unverified, check_new_account_high_amount,
    check_high_amount_vs_average, check_international_unverified, check_odd_hour,
    check_low_amount, check_established_customer, check_customer_history,
    default_config, env_empty, txn_no_rules,
    (by decide : strLower "Web" = "web")]

lemma runRules_txn_two_positive :
    runRules (catalog default_config env_empty) txn_two_positive =
      [ { name := "high_amount_unverified_kyc",
          reason := "High transaction amount without KYC verification",
          priority := 6, risk_contribution := 0.70 },
        { name := "international_unverified",
          reason := "International transaction without KYC verification",
          priority := 3, risk_contribution := 0.85 } ] := by
  norm_num [runRules, catalog, check_high_amount_unverified, check_new_account_high_amount,
    check_high_amount_vs_average, check_international_unverified, check_odd_hour,
    check_low_amount, check_established_customer, check_customer_history,
    default_config, env_empty, txn_two_positive,
    (by decide : strLower "International" = "international")]

lemma runRules_txn_small_odd_hour :
    runRules (catalog default_config env_empty) txn_small_odd_hour =
      [ { name := "odd_hour_transaction",
          reason := "Transaction during suspicious hours (2-4 AM)",
          priority := 2, risk_contribution := 0.60 },
        { name := "low_amount_trust",
          reason := "Low transaction amount (reasonable spending)",
          priority := 1, risk_contribution := -0.30 } ] := by
  norm_num [runRules, catalog, check_high_amount_unverified, check_new_account_high_amount,
    check_high_amount_vs_average, check_international_unverified, check_odd_hour,
    check_low_amount, check_established_customer, check_customer_history,
    default_config, env_empty, txn_small_odd_hour,
    (by decide : strLower "Web" = "web"),
    (by decide : ¬ (("web" : String) = "international" ∨ ("web" : String) = "foreign" ∨
      ("web" : String) = "overseas"))]

/-! ### Claim theorems -/

/-- C1: with an ML prediction present, the fusion computes
`adjustedEstimate = clamp(estimatorProbability + ruleRiskDecrease, 0, 1)` and
the pre-floor final risk score `max(adjustedEstimate, ruleRiskIncrease)`
(the amount floor and the 4-decimal reporting rounding are applied on top);
concretely, triggered discounts −0.30, −0.10, −0.15 (sum −0.55) with no
positive rule against estimator probability 0.10 give adjusted estimate 0 and
final risk score 0 (amount 1000, so no amount floor applies). -/
theorem claim_fusion_formula_and_discount_cap :
    (∀ (rules : List RuleDef) (t : Txn) (m : MLPred),
      (evaluate_transaction rules t (some m)).risk_score =
        round4 (apply_amount_floor t.amount
          (max (clamp01 (m.risk_score +
              rule_risk_decrease ((runRules rules t).map (fun r => r.risk_contribution))))
            (rule_risk_increase ((runRules rules t).map (fun r => r.risk_contribution)))))) ∧
    rule_risk_decrease ((runRules (catalog default_config env_trusted) txn_discounts).map
      (fun r => r.risk_contribution)) = -0.55 ∧
    rule_risk_increase ((runRules (catalog default_config env_trusted) txn_discounts).map
      (fun r => r.risk_contribution)) = 0 ∧
    clamp01 ((0.10 : ℚ) + (-0.55)) = 0 ∧
    max (clamp01 ((0.10 : ℚ) + (-0.55))) 0 = 0 ∧
    (evaluate_transaction (catalog default_config env_trusted) txn_discounts
      (some { risk_score := 0.10, prediction := "Legitimate" })).risk_score = 0 := by
  refine ⟨fun rules t m => evaluate_some_risk_score rules t m, ?_, ?_, ?_, ?_, ?_⟩
  · rw [runRules_txn_discounts]
    norm_num [rule_risk_decrease, List.filter]
  · rw [runRules_txn_discounts]
    norm_num [rule_risk_increase, List.filter]
  · norm_num [clamp01, max_def, min_def]
  · norm_num [clamp01, max_def, min_def]
  · refine eval_some_risk_score_eq ?_ round4_zero
    rw [runRules_txn_discounts]
    norm_num [apply_amount_floor, clamp01, rule_risk_increase, rule_risk_decrease,
      List.filter, max_def, min_def, txn_discounts]

lemma le_round4 {c x : ℚ} (hc : round4 c = c) (h : c ≤ x) : c ≤ round4 x := by
  calc c = round4 c := hc.symm
    _ ≤ round4 x := round4_mono h

lemma apply_amount_floor_ge_05 {a x : ℚ} (h : 50000 < a) :
    (0.05 : ℚ) ≤ apply_amount_floor a x := by
  unfold apply_amount_floor
  rw [if_pos h]
  exact le_max_right _ _

lemma apply_amount_floor_ge_03 {a x : ℚ} (h : 20000 < a) :
    (0.03 : ℚ) ≤ apply_amount_floor a x := by
  unfold apply_amount_floor
  by_cases h1 : 50000 < a
  · rw [if_pos h1]
    exact le_trans (by norm_num) (le_max_right x (0.05 : ℚ))
  · rw [if_neg h1, if_pos h]
    exact le_max_right _ _

/-- C2: the rule aggregation takes the maximum of the positive contributions
(0 when there are none), the sum of the negative contributions, and floors
their sum at 0, so `ruleRiskScore` is never negative; two triggered positive
rules 0.70 and 0.85 with no discounts aggregate to 0.85, not their sum. -/
theorem claim_rule_aggregation_policy :
    (∀ scores : List ℚ,
      (scores.filter (fun s => decide (0 < s)) = [] → rule_risk_increase scores = 0) ∧
      (scores.filter (fun s => decide (0 < s)) ≠ [] →
        rule_risk_increase scores ∈ scores.filter (fun s => decide (0 < s)) ∧
        ∀ s ∈ scores.filter (fun s => decide (0 < s)), s ≤ rule_risk_increase scores) ∧
      rule_risk_decrease scores = (scores.filter (fun s => decide (s < 0))).sum ∧
      rule_risk_decrease scores ≤ 0 ∧
      rule_risk_score scores = max 0 (rule_risk_increase scores + rule_risk_decrease scores) ∧
      0 ≤ rule_risk_score scores) ∧
    (∀ (rules : List RuleDef) (t : Txn) (ml : Option MLPred),
      0 ≤ (evaluate_transaction rules t ml).rule_risk_score) ∧
    rule_risk_increase [0.70, 0.85] = 0.85 ∧
    rule_risk_increase ((runRules (catalog default_config env_empty) txn_two_positive).map
      (fun r => r.risk_contribution)) = 0.85 ∧
    rule_risk_decrease ((runRules (catalog default_config env_empty) txn_two_positive).map
      (fun r => r.risk_contribution)) = 0 := by
  refine ⟨?_, ?_, ?_, ?_, ?_⟩
  · intro scores
    refine ⟨?_, ?_, rfl, rule_risk_decrease_nonpos scores, rfl, rule_risk_score_nonneg scores⟩
    · intro h
      unfold rule_risk_increase
      rw [h]
      rfl
    · intro h
      refine ⟨foldrMax_mem h ?_, fun s hs => le_foldrMax_of_mem hs⟩
      intro x hx
      exact of_decide_eq_true (List.mem_filter.mp hx).2
  · intro rules t ml
    rw [evaluate_rule_risk_score]
    exact round4_nonneg (rule_risk_score_nonneg _)
  · norm_num [rule_risk_increase, List.filter, max_def]
  · rw [runRules_txn_two_positive]
    norm_num [rule_risk_increase, List.filter, max_def]
  · rw [runRules_txn_two_positive]
    norm_num [rule_risk_decrease, List.filter]

/-- Witness for C2: the hypothesis-bearing parts applied at `[]` (no positive
contribution) and at the concrete contribution list `[0.70, 0.85]`. -/
theorem claim_rule_aggregation_policy_witness :
    rule_risk_increase ([] : List ℚ) = 0 ∧
    rule_risk_increase [(0.70 : ℚ), 0.85] ∈
      ([(0.70 : ℚ), 0.85].filter (fun s => decide (0 < s))) :=
  ⟨(claim_rule_aggregation_policy.1 []).1 rfl,
    ((claim_rule_aggregation_policy.1 [0.70, 0.85]).2.1
      (by norm_num [List.filter]; exact List.cons_ne_nil _ _)).1⟩

/-- C3: with an ML prediction, the amount floor raises the reported risk
score to at least 0.05 for amounts above 50000 and at least 0.03 for amounts
above 20000; the floor touches only the score — the label is a function of
the triggered rules and the ML label alone; concretely, amount 60000 with
estimator probability 0 and zero triggered rules scores exactly 0.05 and is
labelled Legitimate. -/
theorem claim_amount_risk_floor :
    (∀ (rules : List RuleDef) (t : Txn) (m : MLPred), 50000 < t.amount →
      0.05 ≤ (evaluate_transaction rules t (some m)).risk_score) ∧
    (∀ (rules : List RuleDef) (t : Txn) (m : MLPred), 20000 < t.amount →
      0.03 ≤ (evaluate_transaction rules t (some m)).risk_score) ∧
    (∀ (rules : List RuleDef) (t : Txn) (m : MLPred),
      (evaluate_transaction rules t (some m)).final_prediction =
        if ¬ ((runRules rules t).filter
              (fun r => decide ((0.5 : ℚ) < r.risk_contribution))).isEmpty ∨
            m.prediction = "Fraud"
        then "Fraud" else "Legitimate") ∧
    (evaluate_transaction (catalog default_config env_empty) txn_no_rules
      (some { risk_score := 0, prediction := predict_label 0 0.5 })).risk_score = 0.05 ∧
    (evaluate_transaction (catalog default_config env_empty) txn_no_rules
      (some { risk_score := 0, prediction := predict_label 0 0.5 })).final_prediction =
      "Legitimate" ∧
    runRules (catalog default_config env_empty) txn_no_rules = [] := by
  refine ⟨?_, ?_, fun rules t m => evaluate_some_final_prediction rules t m, ?_, ?_,
    runRules_txn_no_rules⟩
  · intro rules t m h
    rw [evaluate_some_risk_score]
    exact le_round4 (by norm_num [round4, roundHalfEven]) (apply_amount_floor_ge_05 h)
  · intro rules t m h
    rw [evaluate_some_risk_score]
    exact le_round4 (by norm_num [round4, roundHalfEven]) (apply_amount_floor_ge_03 h)
  · refine eval_some_risk_score_eq ?_ (by norm_num [round4, roundHalfEven])
    rw [runRules_txn_no_rules]
    norm_num [apply_amount_floor, clamp01, rule_risk_increase, rule_risk_decrease,
      List.filter, max_def, min_def, txn_no_rules]
  · rw [evaluate_some_final_prediction, runRules_txn_no_rules]
    norm_num [predict_label, (by decide : ¬ (("Legitimate" : String) = "Fraud"))]

/-- Witness for C3: both floor bounds applied at the concrete amount-60000
transaction. -/
theorem claim_amount_risk_floor_witness :
    (50000 : ℚ) < txn_no_rules.amount ∧ (20000 : ℚ) < txn_no_rules.amount ∧
    0.05 ≤ (evaluate_transaction (catalog default_config env_empty) txn_no_rules
      (some { risk_score := 0, prediction := predict_label 0 0.5 })).risk_score ∧
    0.03 ≤ (evaluate_transaction (catalog default_config env_empty) txn_no_rules
      (some { risk_score := 0, prediction := predict_label 0 0.5 })).risk_score :=
  ⟨by norm_num [txn_no_rules], by norm_num [txn_no_rules],
    claim_amount_risk_floor.1 _ _ _ (by norm_num [txn_no_rules]),
    claim_amount_risk_floor.2.1 _ _ _ (by norm_num [txn_no_rules])⟩

/-- C4: with the ML label computed from the raw probability and decision
threshold as in `RealtimePredictor.predict`, the final label is Fraud exactly
when some triggered rule contributes strictly more than 0.5 or the raw
probability reaches the threshold (inclusive); in particular a probability
exactly at the threshold with zero triggered rules is labelled Fraud. -/
theorem claim_fraud_label_rule :
    (∀ (rules : List RuleDef) (t : Txn) (p th : ℚ),
      ((evaluate_transaction rules t
          (some { risk_score := p, prediction := predict_label p th })).final_prediction =
        "Fraud" ↔
        ((∃ r ∈ runRules rules t, (0.5 : ℚ) < r.risk_contribution) ∨ th ≤ p))) ∧
    (evaluate_transaction (catalog default_config env_empty) txn_no_rules
      (some { risk_score := 0.5, prediction := predict_label 0.5 0.5 })).final_prediction =
      "Fraud" := by
  constructor
  · intro rules t p th
    rw [evaluate_some_final_prediction]
    have hpl : (predict_label p th = "Fraud") ↔ th ≤ p := by
      unfold predict_label
      split_ifs with h
      · simpa using h
      · simpa using h
    have hfil : (¬ ((runRules rules t).filter
          (fun r => decide ((0.5 : ℚ) < r.risk_contribution))).isEmpty = true) ↔
        ∃ r ∈ runRules rules t, (0.5 : ℚ) < r.risk_contribution := by
      rw [List.isEmpty_iff, List.filter_eq_nil_iff]
      push_neg
      simp
    by_cases hcond : (¬ ((runRules rules t).filter
          (fun r => decide ((0.5 : ℚ) < r.risk_contribution))).isEmpty = true) ∨
        predict_label p th = "Fraud"
    · rw [if_pos hcond]
      exact iff_of_true rfl (hcond.imp hfil.mp hpl.mp)
    · rw [if_neg hcond]
      exact iff_of_false (by decide) (fun h => hcond (h.imp hfil.mpr hpl.mpr))
  · rw [evaluate_some_final_prediction, runRules_txn_no_rules]
    norm_num [predict_label]

/-- An alert row already in the terminal status RESOLVED. -/
def resolved_alert : AlertRecord :=
  { alert_id := 1, transaction_id := "tx1", customer_id := "c1", alert_type := "HYBRID",
    severity := "HIGH", status := "RESOLVED", risk_score := 0.8,
    ml_prediction := some "Fraud", triggered_rules := [], metadata := none,
    created_at := 0, updated_at := 1, resolved_at := some 1,
    resolved_by := some "analyst", resolution_notes := some "confirmed and closed" }

/-- Counterexample to C5: `update_alert_status` on an alert already RESOLVED
with new status INVESTIGATING silently changes the status — the code has no
guard on the current status, so a terminal alert is re-opened rather than the
update being rejected or a no-op. -/
theorem claim_terminal_status_counterexample :
    resolved_alert.status = "RESOLVED" ∧
    (update_alert_status resolved_alert "INVESTIGATING" none none 2).status =
      "INVESTIGATING" ∧
    ¬ ((update_alert_status resolved_alert "INVESTIGATING" none none 2).status =
      resolved_alert.status) := by
  refine ⟨rfl, ?_, ?_⟩
  · unfold update_alert_status
    rw [if_neg (by decide : ¬ (("INVESTIGATING" : String) = "RESOLVED" ∨
      ("INVESTIGATING" : String) = "FALSE_POSITIVE" ∨
      ("INVESTIGATING" : String) = "CONFIRMED"))]
  · unfold update_alert_status
    rw [if_neg (by decide : ¬ (("INVESTIGATING" : String) = "RESOLVED" ∨
      ("INVESTIGATING" : String) = "FALSE_POSITIVE" ∨
      ("INVESTIGATING" : String) = "CONFIRMED"))]
    decide

/-- C5 as amended: `update_alert_status` writes the requested status
unconditionally — the current status, terminal or not, is never consulted, so
an alert in a terminal state can be moved to any status. -/
theorem claim_status_update_unconditional :
    ∀ (a : AlertRecord) (s : String) (notes rb : Option String) (now : ℕ),
      (update_alert_status a s notes rb now).status = s := by
  intro a s notes rb now
  unfold update_alert_status
  split_ifs <;> rfl

/-- C6: a rule whose evaluation function raises is treated as not triggered —
inserting a failing rule anywhere in the rule list changes neither the
triggered-rule list (every remaining rule is still evaluated) nor the final
evaluation result, and rule evaluation is total by construction. -/
theorem claim_rule_failure_isolation :
    ∀ (pre post : List RuleDef) (nm rsn : String) (prio : ℤ)
      (f : Txn → Except String (Bool × ℚ)) (t : Txn) (msg : String),
      f t = Except.error msg →
      runRules
          (pre ++ { name := nm, priority := prio, reason := rsn, func := f } :: post) t =
        runRules (pre ++ post) t ∧
      ∀ ml : Option MLPred,
        evaluate_transaction
            (pre ++ { name := nm, priority := prio, reason := rsn, func := f } :: post) t ml =
          evaluate_transaction (pre ++ post) t ml := by
  intro pre post nm rsn prio f t msg h
  have hrun : runRules
      (pre ++ { name := nm, priority := prio, reason := rsn, func := f } :: post) t =
      runRules (pre ++ post) t := by
    induction pre with
    | nil =>
      rw [List.nil_append, List.nil_append]
      exact runRules_cons_error
        (show ({ name := nm, priority := prio, reason := rsn, func := f } : RuleDef).func t
          = Except.error msg from h)
    | cons a rs ih =>
      rw [List.cons_append, List.cons_append]
      rcases ha : a.func t with e | ⟨b, c⟩
      · rw [runRules_cons_error ha, runRules_cons_error ha]
        exact ih
      · cases b
        · rw [runRules_cons_ok_false ha, runRules_cons_ok_false ha]
          exact ih
        · rw [runRules_cons_ok_true ha, runRules_cons_ok_true ha, ih]
  exact ⟨hrun, fun ml => evaluate_congr_runRules t hrun ml⟩

/-- A rule evaluation function that always raises (its dependency lookup is
unavailable). -/
def failing_rule_func : Txn → Except String (Bool × ℚ) :=
  fun _ => Except.error "database unavailable"

/-- A catalog entry wrapping the failing evaluation function. -/
def failing_rule : RuleDef :=
  { name := "bad_rule", priority := 9, reason := "failing dependency",
    func := failing_rule_func }

/-- Witness for C6: a failing rule prepended to the default catalog leaves the
evaluation of the concrete discount transaction unchanged. -/
theorem claim_rule_failure_isolation_witness :
    failing_rule_func txn_discounts = Except.error "database unavailable" ∧
    runRules ([] ++ failing_rule :: catalog default_config env_trusted) txn_discounts =
      runRules ([] ++ catalog default_config env_trusted) txn_discounts :=
  ⟨rfl, (claim_rule_failure_isolation [] (catalog default_config env_trusted)
    "bad_rule" "failing dependency" 9 failing_rule_func txn_discounts
    "database unavailable" rfl).1⟩

/-- C7: `create_alert` returns null and leaves the alert store untouched for
every decision whose final label is not Fraud, whatever the risk score, ML
prediction, metadata or store contents; an alert id is returned only for
Fraud decisions. -/
theorem claim_alert_only_for_fraud :
    ∀ (tid cid : String) (rs : ℚ) (ml : Option MLPred) (re : EvalResult)
      (md : Option String) (store : AlertStore) (now : ℕ),
      re.final_prediction ≠ "Fraud" →
      create_alert tid cid rs ml (some re) md store now = (none, store) ∧
      ∀ i, (create_alert tid cid rs ml (some re) md store now).1 ≠ some i := by
  intro tid cid rs ml re md store now h
  have hmain : create_alert tid cid rs ml (some re) md store now = (none, store) := by
    unfold create_alert
    rw [if_pos h]
  refine ⟨hmain, fun i => ?_⟩
  rw [hmain]
  simp

/-- A non-fraud fusion decision and an empty alert store. -/
def legit_eval : EvalResult :=
  { final_prediction := "Legitimate", risk_score := 0, ml_risk_score := 0,
    rule_risk_score := 0, rules_triggered := [], rule_details := [], rules_count := 0 }

def empty_store : AlertStore := { next_id := 1, alerts := [] }

/-- Witness for C7: a Legitimate decision creates no alert in the empty
store. -/
theorem claim_alert_only_for_fraud_witness :
    legit_eval.final_prediction ≠ "Fraud" ∧
    create_alert "tx1" "c1" 0 none (some legit_eval) none empty_store 0 =
      (none, empty_store) :=
  ⟨by decide,
    (claim_alert_only_for_fraud "tx1" "c1" 0 none legit_eval none empty_store 0
      (by decide)).1⟩

/-- C8: holding every field but the amount and all external state (lookup
results, ML prediction) fixed, with KYC unverified, raising the amount from
below 50000 to above 50000 cannot decrease the final risk score of the
default catalog. -/
theorem claim_amount_monotonicity :
    ∀ (env : Env) (t : Txn) (m : MLPred) (a₁ a₂ : ℚ),
      t.kycVerified = 0 → a₁ < 50000 → 50000 < a₂ →
      (evaluate_transaction (catalog default_config env) { t with amount := a₁ }
        (some m)).risk_score ≤
      (evaluate_transaction (catalog default_config env) { t with amount := a₂ }
        (some m)).risk_score := by
  intro env t m a₁ a₂ hk h1 h2
  rw [evaluate_some_risk_score, evaluate_some_risk_score]
  apply round4_mono
  rw [Txn_update_amount, Txn_update_amount]
  refine apply_amount_floor_mono h2 (max_le_max (clamp01_mono ?_)
    (catalog_rri_amount_mono env t a₁ a₂ h1 h2))
  have hdec := catalog_rrd_amount_mono env t a₁ a₂ h2
  linarith

/-- Witness for C8: the concrete 3 AM transaction at amounts 1000 and 60000
with a fixed estimator probability of 0.2. -/
theorem claim_amount_monotonicity_witness :
    txn_small_odd_hour.kycVerified = 0 ∧ (1000 : ℚ) < 50000 ∧ (50000 : ℚ) < 60000 ∧
    (evaluate_transaction (catalog default_config env_empty)
      { txn_small_odd_hour with amount := 1000 }
      (some { risk_score := 0.2, prediction := "Legitimate" })).risk_score ≤
    (evaluate_transaction (catalog default_config env_empty)
      { txn_small_odd_hour with amount := 60000 }
      (some { risk_score := 0.2, prediction := "Legitimate" })).risk_score :=
  ⟨rfl, by norm_num, by norm_num,
    claim_amount_monotonicity env_empty txn_small_odd_hour
      { risk_score := 0.2, prediction := "Legitimate" } 1000 60000 rfl
      (by norm_num) (by norm_num)⟩

/-- C9: for every configuration, environment, transaction and estimator
probability in [0,1], the final risk score of an evaluation with the catalog
lies in [0,1]: the adjusted estimate is clamped, every positive rule
contribution is capped at 0.95, and the amount floors of 0.05/0.03 cannot
push above 1. -/
theorem claim_score_bounds :
    ∀ (cfg : RulesConfig) (env : Env) (t : Txn) (p : ℚ) (lbl : String),
      0 ≤ p → p ≤ 1 →
      0 ≤ (evaluate_transaction (catalog cfg env) t
        (some { risk_score := p, prediction := lbl })).risk_score ∧
      (evaluate_transaction (catalog cfg env) t
        (some { risk_score := p, prediction := lbl })).risk_score ≤ 1 := by
  intro cfg env t p lbl hp0 hp1
  rw [evaluate_some_risk_score]
  constructor
  · exact round4_nonneg (apply_amount_floor_nonneg
      (le_trans (clamp01_nonneg _) (le_max_left _ _)))
  · refine round4_le_one (apply_amount_floor_le_one (max_le (clamp01_le_one _) ?_))
    exact le_trans (catalog_rri_le cfg env t) (by norm_num)

/-- Witness for C9: the bounds at the concrete discount transaction with
probability 0.10. -/
theorem claim_score_bounds_witness :
    (0 : ℚ) ≤ 0.10 ∧ (0.10 : ℚ) ≤ 1 ∧
    0 ≤ (evaluate_transaction (catalog default_config env_trusted) txn_discounts
      (some { risk_score := 0.10, prediction := "Legitimate" })).risk_score ∧
    (evaluate_transaction (catalog default_config env_trusted) txn_discounts
      (some { risk_score := 0.10, prediction := "Legitimate" })).risk_score ≤ 1 :=
  ⟨by norm_num, by norm_num,
    (claim_score_bounds default_config env_trusted txn_discounts 0.10 "Legitimate"
      (by norm_num) (by norm_num)).1,
    (claim_score_bounds default_config env_trusted txn_discounts 0.10 "Legitimate"
      (by norm_num) (by norm_num)).2⟩

/-- Counterexample to C10: the 3 AM transaction of amount 1000 (so
0 < amount < 5000) evaluated without an ML prediction is labelled Fraud, as
the claim says, but its rule risk score is 0.30 — not 0 — because the
odd-hour rule (+0.60) also triggers alongside the −0.30 low-amount
discount. -/
theorem claim_rules_only_score_counterexample :
    0 < txn_small_odd_hour.amount ∧ txn_small_odd_hour.amount < 5000 ∧
    (evaluate_transaction (catalog default_config env_empty) txn_small_odd_hour
      none).final_prediction = "Fraud" ∧
    (evaluate_transaction (catalog default_config env_empty) txn_small_odd_hour
      none).rule_risk_score = 0.30 ∧
    ¬ ((evaluate_transaction (catalog default_config env_empty) txn_small_odd_hour
      none).rule_risk_score = 0) := by
  have h30 : (evaluate_transaction (catalog default_config env_empty) txn_small_odd_hour
      none).rule_risk_score = 0.30 := by
    refine eval_rule_risk_score_eq ?_ (by norm_num [round4, roundHalfEven])
    rw [runRules_txn_small_odd_hour]
    norm_num [rule_risk_score, rule_risk_increase, rule_risk_decrease, List.filter, max_def]
  refine ⟨by norm_num [txn_small_odd_hour], by norm_num [txn_small_odd_hour], ?_, h30, ?_⟩
  · rw [evaluate_none_final_prediction, runRules_txn_small_odd_hour]
    simp [List.isEmpty]
  · rw [h30]
    norm_num

/-- The low-amount-trust entry of the catalog, named for the membership
argument below. -/
def low_amount_rule (cfg : RulesConfig) : RuleDef :=
  { name := "low_amount_trust", priority := 1,
    reason := "Low transaction amount (reasonable spending)",
    func := fun t => Except.ok (check_low_amount cfg t) }

lemma low_amount_rule_mem (cfg : RulesConfig) (env : Env) :
    low_amount_rule cfg ∈ catalog cfg env := by
  unfold low_amount_rule catalog
  exact List.mem_cons_of_mem _ (List.mem_cons_of_mem _ (List.mem_cons_of_mem _
    (List.mem_cons_of_mem _ (List.mem_cons_of_mem _ (List.mem_cons_self _ _)))))

/-- C10 as amended: without an ML prediction the label is Fraud whenever any
rule triggered — for every transaction with 0 < amount < 5000 the low-amount
discount rule triggers and the result is labelled Fraud; the rule risk score
is 0 whenever no triggered rule contributes positively; and the amount floor
is never applied in the rules-only branch (the reported risk score is exactly
the rule risk score, so the 60000 no-rule transaction scores 0, not the 0.05
the floor would give). -/
theorem claim_rules_only_branch_amended :
    (∀ (env : Env) (t : Txn), 0 < t.amount → t.amount < 5000 →
      check_low_amount default_config t = (true, -0.30) ∧
      (evaluate_transaction (catalog default_config env) t none).final_prediction =
        "Fraud") ∧
    (∀ (rules : List RuleDef) (t : Txn),
      (∀ r ∈ runRules rules t, r.risk_contribution ≤ 0) →
      (evaluate_transaction rules t none).rule_risk_score = 0) ∧
    (∀ (rules : List RuleDef) (t : Txn),
      (evaluate_transaction rules t none).risk_score =
        (evaluate_transaction rules t none).rule_risk_score) ∧
    (evaluate_transaction (catalog default_config env_empty) txn_no_rules none).risk_score
      = 0 := by
  refine ⟨?_, ?_, ?_, ?_⟩
  · intro env t h0 h5
    have hthr : default_config.low_amount_threshold = 5000 := rfl
    have hcheck : check_low_amount default_config t = (true, -0.30) := by
      unfold check_low_amount
      rw [if_pos ⟨h0, by rw [hthr]; exact h5⟩]
    refine ⟨hcheck, ?_⟩
    have hne : runRules (catalog default_config env) t ≠ [] :=
      runRules_ne_nil_of_triggered (low_amount_rule_mem default_config env)
        (show Except.ok (check_low_amount default_config t) = Except.ok (true, -0.30) by
          rw [hcheck])
    rw [evaluate_none_final_prediction,
      if_pos (show ¬ (runRules (catalog default_config env) t).isEmpty = true from
        fun hem => hne (List.isEmpty_iff.mp hem))]
  · intro rules t hall
    refine eval_rule_risk_score_eq ?_ round4_zero
    unfold rule_risk_score
    have hinc : rule_risk_increase
        ((runRules rules t).map (fun r => r.risk_contribution)) = 0 := by
      unfold rule_risk_increase
      have hfil : ((runRules rules t).map (fun r => r.risk_contribution)).filter
          (fun s => decide (0 < s)) = [] := by
        rw [List.filter_eq_nil_iff]
        intro a ha
        rcases List.mem_map.mp ha with ⟨r, hr, rfl⟩
        simp only [decide_eq_true_eq]
        exact not_lt.mpr (hall r hr)
      rw [hfil]
      rfl
    rw [hinc, zero_add]
    exact max_eq_left (rule_risk_decrease_nonpos _)
  · intro rules t
    rw [evaluate_none_risk_score, evaluate_rule_risk_score]
  · refine eval_none_risk_score_eq ?_ round4_zero
    rw [runRules_txn_no_rules]
    norm_num [rule_risk_score, rule_risk_increase, rule_risk_decrease, List.filter, max_def]

/-- Witness for C10 as amended: the concrete discount transaction (amount
1000, three discount rules, no positive rule) is labelled Fraud in the
rules-only branch with rule risk score 0. -/
theorem claim_rules_only_branch_amended_witness :
    0 < txn_discounts.amount ∧ txn_discounts.amount < 5000 ∧
    (evaluate_transaction (catalog default_config env_trusted) txn_discounts
      none).final_prediction = "Fraud" ∧
    (evaluate_transaction (catalog default_config env_trusted) txn_discounts
      none).rule_risk_score = 0 :=
  ⟨by norm_num [txn_discounts], by norm_num [txn_discounts],
    (claim_rules_only_branch_amended.1 env_trusted txn_discounts
      (by norm_num [txn_discounts]) (by norm_num [txn_discounts])).2,
    claim_rules_only_branch_amended.2.1 (catalog default_config env_trusted) txn_discounts
      (by
        rw [runRules_txn_discounts]
        intro r hr
        rcases List.mem_cons.mp hr with rfl | hr2
        · norm_num
        · rcases List.mem_cons.mp hr2 with rfl | hr3
          · norm_num
          · rcases List.mem_cons.mp hr3 with rfl | hr4
            · norm_num
            · cases hr4)⟩
